import Mathlib

/-!
Shallow embedding of the octobit-backend club-management REST API
(Express + Supabase/PostgREST) and verification of its specification.

Conventions used throughout:
* JSON objects become Lean structures; an absent key becomes `none`.
* JavaScript truthiness tests on strings/numbers are made explicit
  (`jsTruthyStr`, `jsTruthyNatOpt`).
* Request handlers become pure functions from (request data, store state)
  to (response, new store state); the store is a list of rows per table.
* Fallible data-access calls return `Except DbError`.
-/

/-- Truthiness of an optional string field, as JavaScript `if (x)`:
absent and empty string are falsy. -/
def jsTruthyStr : Option String → Bool
  | some s => s ≠ ""
  | none => false

/-- Truthiness of an optional numeric column, as JavaScript `if (x)`:
null and 0 are falsy. -/
def jsTruthyNatOpt : Option Nat → Bool
  | some n => n ≠ 0
  | none => false

/-- JavaScript `Array.prototype.slice(start, end)` for in-range indices:
drop `s` elements then keep the next `e - s`. -/
def jsSlice (xs : List α) (s e : Nat) : List α :=
  (xs.drop s).take (e - s)

/-- JavaScript `Math.ceil(a / b)` on non-negative integers with `b > 0`,
written as natural-number arithmetic. -/
def mathCeilDiv (a b : Nat) : Nat :=
  (a + b - 1) / b

/-- JavaScript `value || null` applied to an optional string field:
an empty string collapses to null. -/
def jsOrNull : Option String → Option String
  | some s => if s = "" then none else some s
  | none => none

/-- Errors surfaced by the Supabase/PostgREST client. -/
inductive DbError where
  /-- PostgREST code PGRST116: a `.single()` call matched no row or
  more than one row. -/
  | noSingleRow
  deriving Repr, DecidableEq

/-- Embedding of `db.findById(table, id)` (src/config/database.js):
`supabase.from(table).select('*').eq('id', id).single()`.  PostgREST's
`.single()` yields an error (PGRST116) unless exactly one row matches,
and `db.findById` rethrows that error, so a missing id is a thrown
store error, not a null result. -/
def dbFindById (rows : List α) (getId : α → String) (id : String) : Except DbError α :=
  match rows.filter (fun r => getId r == id) with
  | [r] => Except.ok r
  | _ => Except.error DbError.noSingleRow

/-- Uniform JSON response envelope restricted to the fields the claims
mention: HTTP status code, `success`, and the `error` message. -/
structure ApiResponse where
  status : Nat
  success : Bool
  error : Option String := none
  deriving Repr, DecidableEq

/-- Modelled from the spec: the centralized error middleware
(src/middleware/errorHandler.js is not present in the sources).  Per §7
every failure a router forwards with `next(error)` surfaces as a 500
response in the standard envelope. -/
def centralizedErrorResponse : ApiResponse :=
  { status := 500, success := false, error := some "Server Error" }

/-- The `pagination` block of list responses. -/
structure Pagination where
  currentPage : Nat
  totalPages : Nat
  hasNext : Bool
  hasPrev : Bool
  deriving Repr, DecidableEq

/-- List response envelope: `success`, `count`, `total`, an optional
`pagination` block (absent key = `none`), and the shaped `data` array. -/
structure ListResponse (α : Type) where
  success : Bool
  count : Nat
  total : Nat
  pagination : Option Pagination := none
  data : List α
  deriving Repr, DecidableEq

/-! ## Events and event registrations (events router) -/

/-- A row of the `events` table, restricted to the columns the events
router reads.  Timestamps are modelled as naturals. -/
structure EventRow where
  id : String
  title : String
  event_date : Nat
  location : String
  max_attendees : Option Nat
  current_attendees : Nat
  category : String
  difficulty : Option String
  status : String
  is_active : Bool
  activation_date : Option Nat
  department : Option String
  created_at : Nat
  deriving Repr, DecidableEq

/-- A row of the `event_registrations` table. -/
structure EventRegistration where
  event_id : String
  user_id : String
  status : String
  deriving Repr, DecidableEq

/-- The part of the store the registration endpoint touches. -/
structure RegState where
  events : List EventRow
  registrations : List EventRegistration
  deriving Repr, DecidableEq

/-- Count of `registered` rows for an event, as the handler's query
`db.query('event_registrations', { where: { event_id, status: 'registered' } })`. -/
def registeredCount (regs : List EventRegistration) (eventId : String) : Nat :=
  (regs.filter (fun r => r.event_id == eventId && r.status == "registered")).length

/-- The capacity condition of the register handler: `max_attendees` is
truthy and the current `registered` count has reached it. -/
def eventIsFull (event : EventRow) (regs : List EventRegistration) (eventId : String) : Bool :=
  match event.max_attendees with
  | some m => m ≠ 0 && registeredCount regs eventId ≥ m
  | none => false

/-- Embedding of `POST /api/events/:id/register` (events router).
Gates in source order: userId truthiness (400), event lookup via
`db.findById` (a missing event surfaces the store's `.single()` error),
`is_active` (400), capacity when `max_attendees` is truthy (400
"Event is full"), duplicate `(event, user)` row of any status (409),
then insert of a `registered` row (201). -/
def registerHandler (st : RegState) (eventId : String) (userId : Option String) :
    ApiResponse × RegState :=
  if ¬ jsTruthyStr userId then
    ({ status := 400, success := false, error := some "User ID is required" }, st)
  else
    let uid := userId.getD ""
    match dbFindById st.events EventRow.id eventId with
    | Except.error _ => (centralizedErrorResponse, st)
    | Except.ok event =>
      if ¬ event.is_active then
        ({ status := 400, success := false,
           error := some "Event is not available for registration" }, st)
      else if eventIsFull event st.registrations eventId then
        ({ status := 400, success := false, error := some "Event is full" }, st)
      else
        let existingRegistration :=
          st.registrations.filter (fun r => r.event_id == eventId && r.user_id == uid)
        if existingRegistration.length > 0 then
          ({ status := 409, success := false,
             error := some "Already registered for this event" }, st)
        else
          ({ status := 201, success := true, error := none },
           { st with registrations :=
               st.registrations ++ [{ event_id := eventId, user_id := uid, status := "registered" }] })

/-! ## Join applications (join router) -/

/-- A row of the `join_applications` table. -/
structure JoinApplication where
  id : String
  first_name : String
  last_name : String
  email : String
  phone : String
  telegram_id : Option String
  discord_id : Option String
  home_address : Option String
  academic_year : String
  field_of_study : String
  preferred_department : String
  secondary_department : Option String
  skills : Option String
  motivation : String
  status : String
  created_at : Nat
  reviewed_at : Option Nat
  deriving Repr, DecidableEq

/-- The output of `joinApplicationSchema.validate` on a well-formed
submission: trimmed, lowercased email, optional fields possibly empty. -/
structure ValidatedApplication where
  firstName : String
  lastName : String
  email : String
  phone : String
  telegramId : Option String := none
  discordId : Option String := none
  homeAddress : Option String := none
  academicYear : String
  fieldOfStudy : String
  preferredDepartment : String
  secondaryDepartment : Option String := none
  skills : Option String := none
  motivation : String
  deriving Repr, DecidableEq

/-- The `applicationData` record built by `POST /api/join` before the
insert, with the server-generated id and creation timestamp attached by
the store. -/
def applicationDataOf (value : ValidatedApplication) (newId : String) (now : Nat) :
    JoinApplication :=
  { id := newId
    first_name := value.firstName
    last_name := value.lastName
    email := value.email
    phone := value.phone
    telegram_id := jsOrNull value.telegramId
    discord_id := jsOrNull value.discordId
    home_address := jsOrNull value.homeAddress
    academic_year := value.academicYear
    field_of_study := value.fieldOfStudy
    preferred_department := value.preferredDepartment
    secondary_department := jsOrNull value.secondaryDepartment
    skills := jsOrNull value.skills
    motivation := value.motivation
    status := "pending"
    created_at := now
    reviewed_at := none }

/-- A row of the `users` table, restricted to the columns the routers
read.  `id` and `created_at` are server-generated on insert;
`password_hash` is absent until set. -/
structure UserRecord where
  id : String
  email : String
  first_name : String
  last_name : String
  phone : String
  telegram_id : String
  discord_id : String
  home_address : String
  student_id : String
  academic_year : String
  field_of_study : String
  role : String
  department : String
  is_active : Bool
  password_hash : Option String := none
  created_at : Nat := 0
  last_login : Option Nat := none
  deriving Repr, DecidableEq

/-- The part of the store `POST /api/join` touches. -/
structure JoinState where
  applications : List JoinApplication
  users : List UserRecord
  deriving Repr, DecidableEq

/-- Embedding of `POST /api/join` after successful validation: reject
409 when an application row with the same email exists, then 409 when a
user row with the same email exists, else insert the application with
status `pending` and answer 201. -/
def joinSubmitHandler (st : JoinState) (value : ValidatedApplication)
    (newId : String) (now : Nat) : ApiResponse × JoinState :=
  let existingApplication := st.applications.filter (fun a => a.email == value.email)
  if existingApplication.length > 0 then
    ({ status := 409, success := false,
       error := some "An application with this email already exists" }, st)
  else
    let existingUser := st.users.filter (fun u => u.email == value.email)
    if existingUser.length > 0 then
      ({ status := 409, success := false,
         error := some "A user with this email already exists" }, st)
    else
      ({ status := 201, success := true, error := none },
       { st with applications := st.applications ++ [applicationDataOf value newId now] })

/-- Insert an element into a list sorted by a descending key, keeping
existing order among equal keys. -/
def insertByDesc (key : α → Nat) (x : α) : List α → List α
  | [] => [x]
  | y :: ys => if key y < key x then x :: y :: ys else y :: insertByDesc key x ys

/-- `ORDER BY key DESC` of the store, modelled as an insertion sort. -/
def orderByDesc (key : α → Nat) (xs : List α) : List α :=
  xs.foldr (insertByDesc key) []

/-- Insert an element into a list sorted by an ascending key. -/
def insertByAsc (key : α → Nat) (x : α) : List α → List α
  | [] => [x]
  | y :: ys => if key x < key y then x :: y :: ys else y :: insertByAsc key x ys

/-- `ORDER BY key ASC` of the store, modelled as an insertion sort. -/
def orderByAsc (key : α → Nat) (xs : List α) : List α :=
  xs.foldr (insertByAsc key) []

/-- The status values the join router accepts as a list filter and as a
status update (`['pending', 'approved', 'rejected']`). -/
def joinStatusValues : List String := ["pending", "approved", "rejected"]

/-- The query `GET /api/join` issues: optional status filter (applied
only when the value is in the fixed enum), ordered by `created_at`
descending. -/
def joinListQuery (apps : List JoinApplication) (status : Option String) :
    List JoinApplication :=
  let filtered :=
    match status with
    | some s => if s ≠ "" && joinStatusValues.contains s
                then apps.filter (fun a => a.status == s) else apps
    | none => apps
  orderByDesc JoinApplication.created_at filtered

/-- The shaped element of the `GET /api/join` data array. -/
structure ApplicationSummary where
  id : String
  name : String
  email : String
  phone : String
  academicYear : String
  fieldOfStudy : String
  preferredDepartment : String
  secondaryDepartment : Option String
  status : String
  submittedAt : Nat
  reviewedAt : Option Nat
  deriving Repr, DecidableEq

/-- The response-shaping map of `GET /api/join`. -/
def formatApplicationSummary (app : JoinApplication) : ApplicationSummary :=
  { id := app.id
    name := app.first_name ++ " " ++ app.last_name
    email := app.email
    phone := app.phone
    academicYear := app.academic_year
    fieldOfStudy := app.field_of_study
    preferredDepartment := app.preferred_department
    secondaryDepartment := app.secondary_department
    status := app.status
    submittedAt := app.created_at
    reviewedAt := app.reviewed_at }

/-- Embedding of `GET /api/join`: query, in-memory page slice with
`startIndex = (page-1)*limit` and `endIndex = page*limit`, and the
response with `count`, `total`, the `pagination` block, and shaped data. -/
def joinListHandler (apps : List JoinApplication) (status : Option String)
    (page limit : Nat) : ListResponse ApplicationSummary :=
  let applications := joinListQuery apps status
  let startIndex := (page - 1) * limit
  let endIndex := page * limit
  let paginatedApplications := jsSlice applications startIndex endIndex
  { success := true
    count := paginatedApplications.length
    total := applications.length
    pagination := some
      { currentPage := page
        totalPages := mathCeilDiv applications.length limit
        hasNext := decide (endIndex < applications.length)
        hasPrev := decide (startIndex > 0) }
    data := paginatedApplications.map formatApplicationSummary }

/-- Embedding of `GET /api/join/:id`: `db.findById` then either the
shaped record (200) or — when the lookup throws — the error forwarded to
the centralized handler.  The handler's own `if (!application)` 404
branch cannot fire, because `.single()` already errored when no row
matched. -/
def joinGetByIdHandler (apps : List JoinApplication) (id : String) : ApiResponse :=
  match dbFindById apps JoinApplication.id id with
  | Except.error _ => centralizedErrorResponse
  | Except.ok _ => { status := 200, success := true, error := none }

/-! ## Tasks (tasks router) -/

/-- A row of the `tasks` table, restricted to the columns the update
endpoint touches. -/
structure TaskRow where
  id : String
  title : String
  description : String
  status : String
  priority : String
  progress : Int
  due_date : Option String
  category : Option String
  completed_at : Option Nat
  deriving Repr, DecidableEq

/-- The body of a `PUT /api/tasks/:id` request, restricted to the keys
the handler reads.  `progress` is double-optional: the outer layer is
key presence (`!== undefined`), the inner layer is the result of
JavaScript `parseInt` (`none` = NaN). -/
structure TaskUpdateBody where
  title : Option String := none
  description : Option String := none
  status : Option String := none
  priority : Option String := none
  progress : Option (Option Int) := none
  dueDate : Option String := none
  category : Option String := none
  deriving Repr, DecidableEq

/-- The partial `updateData` record the task update handler assembles. -/
structure TaskUpdateData where
  title : Option String := none
  description : Option String := none
  status : Option String := none
  priority : Option String := none
  progress : Option Int := none
  due_date : Option String := none
  category : Option String := none
  completed_at : Option Nat := none
  deriving Repr, DecidableEq

/-- The status enum of the task update handler
(`['pending', 'in-progress', 'completed']`). -/
def tasksUpdateStatusValues : List String := ["pending", "in-progress", "completed"]

/-- The priority enum of the task update handler (`['low', 'medium', 'high']`). -/
def tasksUpdatePriorityValues : List String := ["low", "medium", "high"]

/-- Step `if (req.body.title) updateData.title = req.body.title`. -/
def stepTitle (body : TaskUpdateBody) (u : TaskUpdateData) : TaskUpdateData :=
  if jsTruthyStr body.title then { u with title := body.title } else u

/-- Step `if (req.body.description) updateData.description = ...`. -/
def stepDescription (body : TaskUpdateBody) (u : TaskUpdateData) : TaskUpdateData :=
  if jsTruthyStr body.description then { u with description := body.description } else u

/-- Step for the status field: when present and in the enum it is
applied, and `completed` additionally stamps `completed_at` and forces
`progress` to 100. -/
def stepStatus (body : TaskUpdateBody) (now : Nat) (u : TaskUpdateData) : TaskUpdateData :=
  match body.status with
  | some s =>
    if s ≠ "" && tasksUpdateStatusValues.contains s then
      let u1 := { u with status := some s }
      if s = "completed" then { u1 with completed_at := some now, progress := some 100 }
      else u1
    else u
  | none => u

/-- Step for the priority field: applied when present and in the enum. -/
def stepPriority (body : TaskUpdateBody) (u : TaskUpdateData) : TaskUpdateData :=
  match body.priority with
  | some p => if p ≠ "" && tasksUpdatePriorityValues.contains p
              then { u with priority := some p } else u
  | none => u

/-- Step for the progress field: when the key is present, `parseInt` it;
a value in [0,100] is applied, and 100 with a prior status other than
`completed` also forces `status` to `completed` and stamps
`completed_at`; NaN and out-of-range values are silently ignored. -/
def stepProgress (existingTask : TaskRow) (body : TaskUpdateBody) (now : Nat)
    (u : TaskUpdateData) : TaskUpdateData :=
  match body.progress with
  | some parsed =>
    match parsed with
    | some progress =>
      if 0 ≤ progress && progress ≤ 100 then
        let u1 := { u with progress := some progress }
        if progress = 100 && existingTask.status ≠ "completed" then
          { u1 with status := some "completed", completed_at := some now }
        else u1
      else u
    | none => u
  | none => u

/-- Step `if (req.body.dueDate) updateData.due_date = req.body.dueDate`. -/
def stepDueDate (body : TaskUpdateBody) (u : TaskUpdateData) : TaskUpdateData :=
  if jsTruthyStr body.dueDate then { u with due_date := body.dueDate } else u

/-- Step `if (req.body.category) updateData.category = req.body.category`. -/
def stepCategory (body : TaskUpdateBody) (u : TaskUpdateData) : TaskUpdateData :=
  if jsTruthyStr body.category then { u with category := body.category } else u

/-- The `updateData` assembly of `PUT /api/tasks/:id`, as the source's
sequence of independent conditionals. -/
def buildTaskUpdate (existingTask : TaskRow) (body : TaskUpdateBody) (now : Nat) :
    TaskUpdateData :=
  stepCategory body (stepDueDate body
    (stepProgress existingTask body now
      (stepPriority body (stepStatus body now
        (stepDescription body (stepTitle body {}))))))

/-- Application of a partial `updateData` record to a stored row, as
`db.update('tasks', id, updateData)`. -/
def applyTaskUpdate (t : TaskRow) (u : TaskUpdateData) : TaskRow :=
  { t with
    title := u.title.getD t.title
    description := u.description.getD t.description
    status := u.status.getD t.status
    priority := u.priority.getD t.priority
    progress := u.progress.getD t.progress
    due_date := match u.due_date with | some d => some d | none => t.due_date
    category := match u.category with | some c => some c | none => t.category
    completed_at := match u.completed_at with | some c => some c | none => t.completed_at }

/-- Embedding of `PUT /api/tasks/:id`: `db.findById` (a missing id
surfaces the store's `.single()` error), then the allow-listed partial
update applied to the matching rows, answered with 200. -/
def updateTaskHandler (st : List TaskRow) (id : String) (body : TaskUpdateBody)
    (now : Nat) : ApiResponse × List TaskRow :=
  match dbFindById st TaskRow.id id with
  | Except.error _ => (centralizedErrorResponse, st)
  | Except.ok existingTask =>
    let updateData := buildTaskUpdate existingTask body now
    ({ status := 200, success := true, error := none },
     st.map (fun t => if t.id == id then applyTaskUpdate t updateData else t))

/-! ## Users (users router and utils/userHelpers) -/

/-- The caller-supplied overrides of `POST /api/users`: every key of the
body except `email` and `password`, which the handler destructures away.
A body may even carry `password_hash`. -/
structure UserOverrides where
  first_name : Option String := none
  last_name : Option String := none
  phone : Option String := none
  telegram_id : Option String := none
  discord_id : Option String := none
  home_address : Option String := none
  student_id : Option String := none
  academic_year : Option String := none
  field_of_study : Option String := none
  role : Option String := none
  department : Option String := none
  is_active : Option Bool := none
  password_hash : Option String := none
  deriving Repr, DecidableEq

/-- Embedding of `generateSampleUser(email, password, overrides)`
(src/utils/userHelpers.js): the fixed default profile template, with the
lowercased email, merged under the caller's overrides (`{...defaultData,
...overrides}`).  `id` and `created_at` are server-generated on insert
and carry placeholders here; the password parameter is unused by the
source function. -/
def generateSampleUser (email : String) (password : String)
    (overrides : UserOverrides) : UserRecord :=
  let _ := password
  { id := ""
    email := email.toLower
    first_name := overrides.first_name.getD "Adem"
    last_name := overrides.last_name.getD "Ben Abdi"
    phone := overrides.phone.getD "+216123456789"
    telegram_id := overrides.telegram_id.getD "@adembenabdi"
    discord_id := overrides.discord_id.getD "adembenabdi#1234"
    home_address := overrides.home_address.getD "123 Rue de la Liberté, Tunis, Tunisia"
    student_id := overrides.student_id.getD "202331551801"
    academic_year := overrides.academic_year.getD "3"
    field_of_study := overrides.field_of_study.getD "Computer Science"
    role := overrides.role.getD "admin"
    department := overrides.department.getD "it"
    is_active := overrides.is_active.getD true
    password_hash := overrides.password_hash
    created_at := 0
    last_login := none }

/-- Embedding of `POST /api/users`, parameterized by the adaptive hash
function (bcrypt with work factor 12 in the source): require email and
password (400), reject 409 when a user with the lowercased email exists,
else insert the sample user merged with overrides, with `password_hash`
forced to the hash of the supplied password, and answer 201. -/
def createUserHandler (hashFn : String → String) (st : List UserRecord)
    (email password : String) (userData : UserOverrides)
    (newId : String) (now : Nat) : ApiResponse × List UserRecord :=
  if email = "" || password = "" then
    ({ status := 400, success := false, error := some "Email and password are required" }, st)
  else
    let existingUser := st.filter (fun u => u.email == email.toLower)
    if existingUser.length > 0 then
      ({ status := 409, success := false,
         error := some "User with this email already exists" }, st)
    else
      let hashedPassword := hashFn password
      let sampleUserData := generateSampleUser email password userData
      let finalUserData := { sampleUserData with password_hash := some hashedPassword }
      ({ status := 201, success := true, error := none },
       st ++ [{ finalUserData with id := newId, created_at := now }])

/-- The role values the users list filter accepts
(`['admin', 'chef_departement', 'membre']`, users router). -/
def usersFilterRoles : List String := ["admin", "chef_departement", "membre"]

/-- The department values the users list filter accepts (users router). -/
def usersFilterDepartments : List String := ["it", "events", "social-media", "design", "extern"]

/-- The shaped element of the `GET /api/users` data array. -/
structure UserSummary where
  id : String
  email : String
  firstName : String
  lastName : String
  phone : String
  studentId : String
  academicYear : String
  fieldOfStudy : String
  role : String
  department : String
  isActive : Bool
  createdAt : Nat
  lastLogin : Option Nat
  deriving Repr, DecidableEq

/-- The response-shaping map of `GET /api/users`. -/
def formatUserSummary (user : UserRecord) : UserSummary :=
  { id := user.id
    email := user.email
    firstName := user.first_name
    lastName := user.last_name
    phone := user.phone
    studentId := user.student_id
    academicYear := user.academic_year
    fieldOfStudy := user.field_of_study
    role := user.role
    department := user.department
    isActive := user.is_active
    createdAt := user.created_at
    lastLogin := user.last_login }

/-- Embedding of `GET /api/users`: validated role/department filters, an
`is_active` filter whenever the `active` parameter is present, ordering
by `created_at` descending, the page slice — and a response carrying
only `count`, `total` and `data`: the users list builds no `pagination`
block. -/
def usersListHandler (users : List UserRecord) (role department active : Option String)
    (page limit : Nat) : ListResponse UserSummary :=
  let step1 :=
    match role with
    | some r => if r ≠ "" && usersFilterRoles.contains r
                then users.filter (fun u => u.role == r) else users
    | none => users
  let step2 :=
    match department with
    | some d => if d ≠ "" && usersFilterDepartments.contains d
                then step1.filter (fun u => u.department == d) else step1
    | none => step1
  let step3 :=
    match active with
    | some a => step2.filter (fun u => u.is_active == (a == "true"))
    | none => step2
  let usersQueried := orderByDesc UserRecord.created_at step3
  let startIndex := (page - 1) * limit
  let endIndex := page * limit
  let paginatedUsers := jsSlice usersQueried startIndex endIndex
  { success := true
    count := paginatedUsers.length
    total := usersQueried.length
    pagination := none
    data := paginatedUsers.map formatUserSummary }

/-! ## Events list (events router) -/

/-- The status values the events list filter accepts
(`['draft', 'active', 'completed', 'cancelled']`, events router). -/
def eventsFilterStatuses : List String := ["draft", "active", "completed", "cancelled"]

/-- The department values the events list filter accepts (events router). -/
def eventsFilterDepartments : List String := ["it", "events", "social-media", "design", "extern"]

/-- The shaped element of the `GET /api/events` data array, restricted
to the modelled columns. -/
structure EventSummary where
  id : String
  title : String
  eventDate : Nat
  location : String
  maxAttendees : Option Nat
  currentAttendees : Nat
  category : String
  difficulty : Option String
  status : String
  isActive : Bool
  activationDate : Option Nat
  department : Option String
  createdAt : Nat
  deriving Repr, DecidableEq

/-- The response-shaping map of `GET /api/events`. -/
def formatEventSummary (event : EventRow) : EventSummary :=
  { id := event.id
    title := event.title
    eventDate := event.event_date
    location := event.location
    maxAttendees := event.max_attendees
    currentAttendees := event.current_attendees
    category := event.category
    difficulty := event.difficulty
    status := event.status
    isActive := event.is_active
    activationDate := event.activation_date
    department := event.department
    createdAt := event.created_at }

/-- Embedding of `GET /api/events`: `is_active` filter for
`active=true`, validated status/department filters, ordering by
`event_date` ascending, optional post-filter to future events, the page
slice, and a response with the `pagination` block. -/
def eventsListHandler (events : List EventRow)
    (status active department upcoming : Option String)
    (page limit : Nat) (now : Nat) : ListResponse EventSummary :=
  let step1 :=
    match active with
    | some a => if a = "true" then events.filter (fun e => e.is_active == true) else events
    | none => events
  let step2 :=
    match status with
    | some s => if s ≠ "" && eventsFilterStatuses.contains s
                then step1.filter (fun e => e.status == s) else step1
    | none => step1
  let step3 :=
    match department with
    | some d => if d ≠ "" && eventsFilterDepartments.contains d
                then step2.filter (fun e => e.department == some d) else step2
    | none => step2
  let queriedEvents := orderByAsc EventRow.event_date step3
  let filteredEvents :=
    match upcoming with
    | some u => if u = "true" then queriedEvents.filter (fun e => now < e.event_date)
                else queriedEvents
    | none => queriedEvents
  let startIndex := (page - 1) * limit
  let endIndex := page * limit
  let paginatedEvents := jsSlice filteredEvents startIndex endIndex
  { success := true
    count := paginatedEvents.length
    total := filteredEvents.length
    pagination := some
      { currentPage := page
        totalPages := mathCeilDiv filteredEvents.length limit
        hasNext := decide (endIndex < filteredEvents.length)
        hasPrev := decide (startIndex > 0) }
    data := paginatedEvents.map formatEventSummary }

/-! ## Enumerated value sets (validation schemas and route filters) -/

/-- Academic year values of `joinApplicationSchema.academicYear`
(utils/validation). -/
def joinSchemaAcademicYears : List String :=
  ["1", "2", "3", "4", "5", "master", "phd", "faculty"]

/-- Department values of `joinApplicationSchema.preferredDepartment`
(utils/validation). -/
def joinSchemaPreferredDepartments : List String :=
  ["it", "events", "social-media", "design", "extern"]

/-- Department values of `joinApplicationSchema.secondaryDepartment`
(utils/validation). -/
def joinSchemaSecondaryDepartments : List String :=
  ["it", "events", "social-media", "design", "extern"]

/-- Difficulty values of `eventSchema.difficulty` (utils/validation). -/
def eventSchemaDifficulties : List String :=
  ["Débutant", "Intermédiaire", "Avancé", "Tous niveaux"]

/-- Whether `eventSchema.difficulty` accepts a string: the enum plus the
empty string (`.valid(...).allow('')`). -/
def eventDifficultyAccepted (s : String) : Bool :=
  s = "" || eventSchemaDifficulties.contains s

/-- Department values of `eventSchema.department` (utils/validation). -/
def eventSchemaDepartments : List String :=
  ["it", "events", "social-media", "design", "extern"]

/-- Department values of `userUpdateSchema.department` (utils/validation). -/
def userUpdateSchemaDepartments : List String :=
  ["it", "events", "social-media", "design", "extern"]

/-- Department values of `taskSchema.department` (utils/validation). -/
def taskSchemaDepartments : List String :=
  ["it", "events", "social-media", "design", "extern"]

/-- Department values of `announcementSchema.targetDepartment`
(utils/validation). -/
def announcementSchemaDepartments : List String :=
  ["it", "events", "social-media", "design", "extern"]

/-- Department values the announcements list filter accepts
(announcements router). -/
def announcementsFilterDepartments : List String :=
  ["it", "events", "social-media", "design", "extern"]

/-- Department values the tasks list filter accepts (tasks router). -/
def tasksFilterDepartments : List String :=
  ["it", "events", "social-media", "design", "extern"]

/-! ## Helper lemmas -/

theorem filter_length_pos_of_any (l : List α) (p : α → Bool) (h : l.any p = true) :
    0 < (l.filter p).length := by
  rcases List.any_eq_true.mp h with ⟨a, ha, hpa⟩
  exact List.length_pos_of_mem (List.mem_filter.mpr ⟨ha, hpa⟩)

/-! ## Sample data for concrete evaluations -/

/-- A one-seat active event used in concrete evaluations. -/
def sampleEventC1 : EventRow :=
  { id := "e1", title := "Intro workshop", event_date := 40, location := "Hall A"
    max_attendees := some 1, current_attendees := 1, category := "workshop"
    difficulty := none, status := "active", is_active := true
    activation_date := some 5, department := some "it", created_at := 1 }

/-- Store for the C1 evaluation: the one-seat event with its only seat
taken by `alice`. -/
def sampleStateC1 : RegState :=
  { events := [sampleEventC1]
    registrations := [{ event_id := "e1", user_id := "alice", status := "registered" }] }

/-- C1: the registration handler checks existence, activity, capacity and
duplicates in this order, answering 404 for a missing event, and 400
with no insert when the `registered` count has reached `max_attendees`.
This evaluation documents the capacity part (400 "Event is full", store
unchanged) and the divergence on a missing event id: `db.findById` uses
`.single()`, which raises the store's no-row error, so the response is
the centralized handler's 500, not the 404 the in-handler null-check
intends. -/
theorem c1_register_gating_eval :
    (registerHandler sampleStateC1 "missing" (some "bob")).1 = centralizedErrorResponse ∧
    (registerHandler sampleStateC1 "missing" (some "bob")).1.status = 500 ∧
    ¬ (registerHandler sampleStateC1 "missing" (some "bob")).1.status = 404 ∧
    (registerHandler sampleStateC1 "missing" (some "bob")).2 = sampleStateC1 ∧
    (registerHandler sampleStateC1 "e1" (some "bob")).1 =
      { status := 400, success := false, error := some "Event is full" } ∧
    (registerHandler sampleStateC1 "e1" (some "bob")).2 = sampleStateC1 := by
  refine ⟨rfl, rfl, by decide, rfl, rfl, rfl⟩

/-- A one-seat active event used in the C2 evaluation. -/
def sampleEventC2 : EventRow :=
  { id := "e2", title := "Capacity demo", event_date := 50, location := "Hall B"
    max_attendees := some 1, current_attendees := 0, category := "talk"
    difficulty := none, status := "active", is_active := true
    activation_date := some 6, department := some "events", created_at := 2 }

/-- Store for the C2 evaluation: the one-seat event with no registrations. -/
def sampleStateC2 : RegState :=
  { events := [sampleEventC2], registrations := [] }

/-- C2 counterexample: with `maxAttendees = 1`, user A registers (201),
user B is rejected (400 "Event is full") — and registering user A again
is also rejected 400 "Event is full", not the claimed 409 "Already
registered": the capacity check runs before the duplicate check.  The
registration rows are unchanged by the second call either way. -/
theorem c2_duplicate_at_capacity_counterexample :
    (registerHandler sampleStateC2 "e2" (some "userA")).1.status = 201 ∧
    (registerHandler (registerHandler sampleStateC2 "e2" (some "userA")).2
        "e2" (some "userB")).1 =
      { status := 400, success := false, error := some "Event is full" } ∧
    (registerHandler (registerHandler sampleStateC2 "e2" (some "userA")).2
        "e2" (some "userA")).1 =
      { status := 400, success := false, error := some "Event is full" } ∧
    ¬ (registerHandler (registerHandler sampleStateC2 "e2" (some "userA")).2
        "e2" (some "userA")).1.status = 409 ∧
    (registerHandler (registerHandler sampleStateC2 "e2" (some "userA")).2
        "e2" (some "userA")).2 =
      (registerHandler sampleStateC2 "e2" (some "userA")).2 := by
  refine ⟨rfl, rfl, rfl, by decide, rfl⟩

/-- C2 (amended): a second registration request for the same event and
user leaves the registration rows unchanged and returns 409 "Already
registered" — unless the event is at capacity, in which case the
capacity check fires first and the response is 400 "Event is full". -/
theorem c2_duplicate_registration (st : RegState) (eventId uid : String) (e : EventRow)
    (huid : uid ≠ "")
    (hfind : dbFindById st.events EventRow.id eventId = Except.ok e)
    (hactive : e.is_active = true)
    (hdup : st.registrations.any (fun r => r.event_id == eventId && r.user_id == uid) = true) :
    (registerHandler st eventId (some uid)).2 = st ∧
    (registerHandler st eventId (some uid)).1 =
      (if eventIsFull e st.registrations eventId then
        { status := 400, success := false, error := some "Event is full" }
      else
        { status := 409, success := false, error := some "Already registered for this event" }) := by
  have htruthy : jsTruthyStr (some uid) = true := by
    simp [jsTruthyStr, huid]
  have hpos : 0 < (st.registrations.filter
      (fun r => r.event_id == eventId && r.user_id == uid)).length :=
    filter_length_pos_of_any _ _ hdup
  by_cases hfull : eventIsFull e st.registrations eventId
  · simp [registerHandler, htruthy, hfind, hactive, hfull]
  · simp [registerHandler, htruthy, hfind, hactive, hfull, hpos]

/-- Store after user A's successful registration into the one-seat event. -/
def sampleStateC2Full : RegState :=
  { events := [sampleEventC2]
    registrations := [{ event_id := "e2", user_id := "userA", status := "registered" }] }

/-- Witness for the amended C2 theorem at the concrete store of the
counterexample after user A's successful registration. -/
theorem c2_duplicate_registration_witness :
    (registerHandler sampleStateC2Full "e2" (some "userA")).2 = sampleStateC2Full ∧
    (registerHandler sampleStateC2Full "e2" (some "userA")).1 =
      (if eventIsFull sampleEventC2 sampleStateC2Full.registrations "e2" then
        { status := 400, success := false, error := some "Event is full" }
      else
        { status := 409, success := false, error := some "Already registered for this event" }) :=
  c2_duplicate_registration sampleStateC2Full "e2" "userA" sampleEventC2
    (by decide) (by rfl) (by rfl) (by rfl)

/-- A stored join application used in concrete evaluations. -/
def sampleApplication : JoinApplication :=
  { id := "a1", first_name := "Lina", last_name := "Haddad"
    email := "lina@example.com", phone := "+21655555555"
    telegram_id := none, discord_id := none, home_address := none
    academic_year := "2", field_of_study := "Mathematics"
    preferred_department := "design", secondary_department := none
    skills := none, motivation := "I want to join the club"
    status := "pending", created_at := 3, reviewed_at := none }

/-- C4: `findById` is claimed to yield a not-found outcome distinct from
a data-access failure, with the by-id handlers answering 404 on an
unknown id.  Evaluating `GET /api/join/:id` at an id absent from the
table shows the opposite: `.single()` raises the store's no-row error,
`db.findById` rethrows it, and the handler's catch forwards it to the
centralized error handler, so the response is 500, never the unreachable
404 branch.  A present id still answers 200, and the read changes no
state. -/
theorem c4_findById_missing_id_eval :
    joinGetByIdHandler [sampleApplication] "ghost" = centralizedErrorResponse ∧
    (joinGetByIdHandler [sampleApplication] "ghost").status = 500 ∧
    ¬ (joinGetByIdHandler [sampleApplication] "ghost").status = 404 ∧
    (joinGetByIdHandler [sampleApplication] "a1").status = 200 ∧
    dbFindById ([sampleApplication]) JoinApplication.id "ghost" =
      Except.error DbError.noSingleRow := by
  refine ⟨rfl, rfl, by decide, rfl, rfl⟩

/-- C6: submitting a join application whose validated email matches an
existing application row or an existing user row answers 409 and inserts
nothing; otherwise the application is inserted with status `pending` and
the user table is untouched. -/
theorem c6_join_submit_email_uniqueness (st : JoinState) (value : ValidatedApplication)
    (newId : String) (now : Nat) :
    ((st.applications.any (fun a => a.email == value.email) = true ∨
      st.users.any (fun u => u.email == value.email) = true) →
      (joinSubmitHandler st value newId now).1.status = 409 ∧
      (joinSubmitHandler st value newId now).2 = st) ∧
    ((st.applications.any (fun a => a.email == value.email) = false ∧
      st.users.any (fun u => u.email == value.email) = false) →
      (joinSubmitHandler st value newId now).1.status = 201 ∧
      (joinSubmitHandler st value newId now).2.applications =
        st.applications ++ [applicationDataOf value newId now] ∧
      (applicationDataOf value newId now).status = "pending" ∧
      (applicationDataOf value newId now).email = value.email ∧
      (joinSubmitHandler st value newId now).2.users = st.users) := by
  constructor
  · intro hdup
    rcases hdup with happ | huser
    · have hpos := filter_length_pos_of_any _ _ happ
      simp [joinSubmitHandler, hpos]
    · have hpos := filter_length_pos_of_any _ _ huser
      by_cases happ : 0 < (st.applications.filter (fun a => a.email == value.email)).length
      · simp [joinSubmitHandler, happ]
      · simp [joinSubmitHandler, happ, hpos]
  · intro ⟨happ, huser⟩
    have happ0 : (st.applications.filter (fun a => a.email == value.email)).length = 0 := by
      simp only [List.length_eq_zero, List.filter_eq_nil_iff]
      intro a ha
      have := List.any_eq_false.mp happ a ha
      simpa using this
    have huser0 : (st.users.filter (fun u => u.email == value.email)).length = 0 := by
      simp only [List.length_eq_zero, List.filter_eq_nil_iff]
      intro u hu
      have := List.any_eq_false.mp huser u hu
      simpa using this
    simp [joinSubmitHandler, happ0, huser0, applicationDataOf]

/-- A validated submission used as the C6 witness input. -/
def sampleSubmission : ValidatedApplication :=
  { firstName := "Omar", lastName := "Karoui"
    email := "omar@example.com", phone := "+21650000000"
    academicYear := "3", fieldOfStudy := "Computer Science"
    preferredDepartment := "it", motivation := "Curious about systems" }

/-- Witness for the C6 theorem: a fresh email is inserted with status
`pending`, and resubmitting the same email is rejected 409 without a new
row. -/
theorem c6_join_submit_email_uniqueness_witness :
    ((joinSubmitHandler { applications := [sampleApplication], users := [] }
        sampleSubmission "a2" 9).1.status = 201 ∧
      (joinSubmitHandler { applications := [sampleApplication], users := [] }
        sampleSubmission "a2" 9).2.applications =
        [sampleApplication] ++ [applicationDataOf sampleSubmission "a2" 9] ∧
      (applicationDataOf sampleSubmission "a2" 9).status = "pending" ∧
      (applicationDataOf sampleSubmission "a2" 9).email = sampleSubmission.email ∧
      (joinSubmitHandler { applications := [sampleApplication], users := [] }
        sampleSubmission "a2" 9).2.users = []) ∧
    ((joinSubmitHandler
        { applications := [sampleApplication, applicationDataOf sampleSubmission "a2" 9]
          users := [] } sampleSubmission "a3" 11).1.status = 409 ∧
      (joinSubmitHandler
        { applications := [sampleApplication, applicationDataOf sampleSubmission "a2" 9]
          users := [] } sampleSubmission "a3" 11).2 =
        { applications := [sampleApplication, applicationDataOf sampleSubmission "a2" 9]
          users := [] }) :=
  ⟨(c6_join_submit_email_uniqueness _ sampleSubmission "a2" 9).2 (by decide),
   (c6_join_submit_email_uniqueness _ sampleSubmission "a3" 11).1 (Or.inl (by decide))⟩

/-- C5: for a 1-based page `p` and page size `l`, the join list response
returns exactly elements `(p-1)*l` through `p*l - 1` of the full
filtered, ordered (and shaped) result set, with `totalPages` the ceiling
of `total / l`, `hasNext` iff `p*l < total`, and `hasPrev` iff
`(p-1)*l > 0`. -/
theorem c5_join_list_pagination (apps : List JoinApplication) (status : Option String)
    (p l : Nat) (hp : 1 ≤ p) (hl : 1 ≤ l) :
    (joinListHandler apps status p l).data =
      (((joinListQuery apps status).map formatApplicationSummary).drop ((p - 1) * l)).take l ∧
    (joinListHandler apps status p l).pagination =
      some { currentPage := p
             totalPages := (joinListQuery apps status).length ⌈/⌉ l
             hasNext := decide (p * l < (joinListQuery apps status).length)
             hasPrev := decide (0 < (p - 1) * l) } := by
  have h1 : (p - 1) * l = p * l - l := by rw [Nat.sub_mul, one_mul]
  have h2 : l ≤ p * l := Nat.le_mul_of_pos_left l hp
  have harith : p * l - (p - 1) * l = l := by omega
  constructor
  · simp only [joinListHandler, jsSlice, harith]
    rw [List.map_take, List.map_drop]
  · simp only [joinListHandler, mathCeilDiv, Nat.ceilDiv_eq_add_pred_div]

/-- A second stored join application for the C5 witness. -/
def sampleApplicationB : JoinApplication :=
  { sampleApplication with id := "a5", email := "b@example.com", created_at := 7 }

/-- A third stored join application for the C5 witness. -/
def sampleApplicationC : JoinApplication :=
  { sampleApplication with id := "a6", email := "c@example.com", created_at := 5 }

/-- Witness for the C5 theorem: three stored applications, page 2 of
size 2, no status filter. -/
theorem c5_join_list_pagination_witness :
    (joinListHandler [sampleApplication, sampleApplicationB, sampleApplicationC]
        none 2 2).data =
      (((joinListQuery [sampleApplication, sampleApplicationB, sampleApplicationC]
          none).map formatApplicationSummary).drop ((2 - 1) * 2)).take 2 ∧
    (joinListHandler [sampleApplication, sampleApplicationB, sampleApplicationC]
        none 2 2).pagination =
      some { currentPage := 2
             totalPages := (joinListQuery [sampleApplication, sampleApplicationB,
               sampleApplicationC] none).length ⌈/⌉ 2
             hasNext := decide (2 * 2 <
               (joinListQuery [sampleApplication, sampleApplicationB,
                 sampleApplicationC] none).length)
             hasPrev := decide (0 < (2 - 1) * 2) } :=
  c5_join_list_pagination [sampleApplication, sampleApplicationB, sampleApplicationC]
    none 2 2 (by decide) (by decide)

/-! ## Field accounting for the task update steps -/

@[simp] theorem stepTitle_status (b : TaskUpdateBody) (u : TaskUpdateData) :
    (stepTitle b u).status = u.status := by unfold stepTitle; split <;> rfl

@[simp] theorem stepTitle_progress (b : TaskUpdateBody) (u : TaskUpdateData) :
    (stepTitle b u).progress = u.progress := by unfold stepTitle; split <;> rfl

@[simp] theorem stepTitle_completed_at (b : TaskUpdateBody) (u : TaskUpdateData) :
    (stepTitle b u).completed_at = u.completed_at := by unfold stepTitle; split <;> rfl

@[simp] theorem stepTitle_priority (b : TaskUpdateBody) (u : TaskUpdateData) :
    (stepTitle b u).priority = u.priority := by unfold stepTitle; split <;> rfl

@[simp] theorem stepTitle_category (b : TaskUpdateBody) (u : TaskUpdateData) :
    (stepTitle b u).category = u.category := by unfold stepTitle; split <;> rfl

@[simp] theorem stepDescription_title (b : TaskUpdateBody) (u : TaskUpdateData) :
    (stepDescription b u).title = u.title := by unfold stepDescription; split <;> rfl

@[simp] theorem stepDescription_status (b : TaskUpdateBody) (u : TaskUpdateData) :
    (stepDescription b u).status = u.status := by unfold stepDescription; split <;> rfl

@[simp] theorem stepDescription_progress (b : TaskUpdateBody) (u : TaskUpdateData) :
    (stepDescription b u).progress = u.progress := by unfold stepDescription; split <;> rfl

@[simp] theorem stepDescription_completed_at (b : TaskUpdateBody) (u : TaskUpdateData) :
    (stepDescription b u).completed_at = u.completed_at := by
  unfold stepDescription; split <;> rfl

@[simp] theorem stepDescription_priority (b : TaskUpdateBody) (u : TaskUpdateData) :
    (stepDescription b u).priority = u.priority := by unfold stepDescription; split <;> rfl

@[simp] theorem stepDescription_category (b : TaskUpdateBody) (u : TaskUpdateData) :
    (stepDescription b u).category = u.category := by unfold stepDescription; split <;> rfl

@[simp] theorem stepStatus_title (b : TaskUpdateBody) (now : Nat) (u : TaskUpdateData) :
    (stepStatus b now u).title = u.title := by
  unfold stepStatus; split <;> (try rfl) <;> split <;> (try rfl) <;> split <;> rfl

@[simp] theorem stepStatus_priority (b : TaskUpdateBody) (now : Nat) (u : TaskUpdateData) :
    (stepStatus b now u).priority = u.priority := by
  unfold stepStatus; split <;> (try rfl) <;> split <;> (try rfl) <;> split <;> rfl

@[simp] theorem stepStatus_category (b : TaskUpdateBody) (now : Nat) (u : TaskUpdateData) :
    (stepStatus b now u).category = u.category := by
  unfold stepStatus; split <;> (try rfl) <;> split <;> (try rfl) <;> split <;> rfl

@[simp] theorem stepPriority_title (b : TaskUpdateBody) (u : TaskUpdateData) :
    (stepPriority b u).title = u.title := by
  unfold stepPriority; split <;> (try rfl) <;> split <;> rfl

@[simp] theorem stepPriority_status (b : TaskUpdateBody) (u : TaskUpdateData) :
    (stepPriority b u).status = u.status := by
  unfold stepPriority; split <;> (try rfl) <;> split <;> rfl

@[simp] theorem stepPriority_progress (b : TaskUpdateBody) (u : TaskUpdateData) :
    (stepPriority b u).progress = u.progress := by
  unfold stepPriority; split <;> (try rfl) <;> split <;> rfl

@[simp] theorem stepPriority_completed_at (b : TaskUpdateBody) (u : TaskUpdateData) :
    (stepPriority b u).completed_at = u.completed_at := by
  unfold stepPriority; split <;> (try rfl) <;> split <;> rfl

@[simp] theorem stepPriority_category (b : TaskUpdateBody) (u : TaskUpdateData) :
    (stepPriority b u).category = u.category := by
  unfold stepPriority; split <;> (try rfl) <;> split <;> rfl

@[simp] theorem stepProgress_title (t : TaskRow) (b : TaskUpdateBody) (now : Nat)
    (u : TaskUpdateData) : (stepProgress t b now u).title = u.title := by
  unfold stepProgress
  split <;> (try rfl) <;> split <;> (try rfl) <;> split <;> (try rfl) <;> split <;> rfl

@[simp] theorem stepProgress_priority (t : TaskRow) (b : TaskUpdateBody) (now : Nat)
    (u : TaskUpdateData) : (stepProgress t b now u).priority = u.priority := by
  unfold stepProgress
  split <;> (try rfl) <;> split <;> (try rfl) <;> split <;> (try rfl) <;> split <;> rfl

@[simp] theorem stepProgress_category (t : TaskRow) (b : TaskUpdateBody) (now : Nat)
    (u : TaskUpdateData) : (stepProgress t b now u).category = u.category := by
  unfold stepProgress
  split <;> (try rfl) <;> split <;> (try rfl) <;> split <;> (try rfl) <;> split <;> rfl

@[simp] theorem stepDueDate_title (b : TaskUpdateBody) (u : TaskUpdateData) :
    (stepDueDate b u).title = u.title := by unfold stepDueDate; split <;> rfl

@[simp] theorem stepDueDate_status (b : TaskUpdateBody) (u : TaskUpdateData) :
    (stepDueDate b u).status = u.status := by unfold stepDueDate; split <;> rfl

@[simp] theorem stepDueDate_progress (b : TaskUpdateBody) (u : TaskUpdateData) :
    (stepDueDate b u).progress = u.progress := by unfold stepDueDate; split <;> rfl

@[simp] theorem stepDueDate_completed_at (b : TaskUpdateBody) (u : TaskUpdateData) :
    (stepDueDate b u).completed_at = u.completed_at := by unfold stepDueDate; split <;> rfl

@[simp] theorem stepDueDate_priority (b : TaskUpdateBody) (u : TaskUpdateData) :
    (stepDueDate b u).priority = u.priority := by unfold stepDueDate; split <;> rfl

@[simp] theorem stepDueDate_category (b : TaskUpdateBody) (u : TaskUpdateData) :
    (stepDueDate b u).category = u.category := by unfold stepDueDate; split <;> rfl

@[simp] theorem stepCategory_title (b : TaskUpdateBody) (u : TaskUpdateData) :
    (stepCategory b u).title = u.title := by unfold stepCategory; split <;> rfl

@[simp] theorem stepCategory_status (b : TaskUpdateBody) (u : TaskUpdateData) :
    (stepCategory b u).status = u.status := by unfold stepCategory; split <;> rfl

@[simp] theorem stepCategory_progress (b : TaskUpdateBody) (u : TaskUpdateData) :
    (stepCategory b u).progress = u.progress := by unfold stepCategory; split <;> rfl

@[simp] theorem stepCategory_completed_at (b : TaskUpdateBody) (u : TaskUpdateData) :
    (stepCategory b u).completed_at = u.completed_at := by unfold stepCategory; split <;> rfl

@[simp] theorem stepCategory_priority (b : TaskUpdateBody) (u : TaskUpdateData) :
    (stepCategory b u).priority = u.priority := by unfold stepCategory; split <;> rfl

theorem stepStatus_of_completed (b : TaskUpdateBody) (now : Nat) (u : TaskUpdateData)
    (h : b.status = some "completed") :
    stepStatus b now u =
      { u with status := some "completed", completed_at := some now, progress := some 100 } := by
  unfold stepStatus
  rw [h]
  rfl

theorem stepStatus_progress_of_not_completed (b : TaskUpdateBody) (now : Nat)
    (u : TaskUpdateData) (h : b.status ≠ some "completed") :
    (stepStatus b now u).progress = u.progress := by
  unfold stepStatus
  cases hs : b.status with
  | none => rfl
  | some s =>
    have hne : s ≠ "completed" := by
      intro he
      exact h (by rw [hs, he])
    simp only [hne, if_false]
    split <;> rfl

theorem stepProgress_of_100 (t : TaskRow) (b : TaskUpdateBody) (now : Nat)
    (u : TaskUpdateData) (h : b.progress = some (some 100)) (ht : t.status ≠ "completed") :
    stepProgress t b now u =
      { u with progress := some 100, status := some "completed", completed_at := some now } := by
  unfold stepProgress
  rw [h]
  simp [ht]

theorem stepProgress_keeps_completion (t : TaskRow) (b : TaskUpdateBody) (now : Nat)
    (u : TaskUpdateData)
    (hguard : ∀ p : Int, b.progress = some (some p) → 0 ≤ p → p ≤ 100 → p = 100)
    (hprog : u.progress = some 100) (hstat : u.status = some "completed")
    (hca : u.completed_at = some now) :
    (stepProgress t b now u).progress = some 100 ∧
    (stepProgress t b now u).status = some "completed" ∧
    (stepProgress t b now u).completed_at = some now := by
  unfold stepProgress
  cases hbp : b.progress with
  | none => exact ⟨hprog, hstat, hca⟩
  | some parsed =>
    cases parsed with
    | none => exact ⟨hprog, hstat, hca⟩
    | some p =>
      by_cases hc : (0 ≤ p && p ≤ 100) = true
      · have hp100 : p = 100 := by
          have hc' := hc
          simp only [Bool.and_eq_true, decide_eq_true_eq] at hc'
          exact hguard p hbp hc'.1 hc'.2
        subst hp100
        simp only [hc, if_true]
        split
        · exact ⟨rfl, rfl, rfl⟩
        · exact ⟨rfl, hstat, hca⟩
      · simp only [hc, if_false]
        exact ⟨hprog, hstat, hca⟩

theorem stepProgress_of_out_of_range (t : TaskRow) (b : TaskUpdateBody) (now : Nat)
    (u : TaskUpdateData) (parsed : Option Int) (h : b.progress = some parsed)
    (hinv : parsed = none ∨ ∃ p : Int, parsed = some p ∧ (p < 0 ∨ 100 < p)) :
    stepProgress t b now u = u := by
  unfold stepProgress
  rw [h]
  rcases hinv with hnan | ⟨p, hp, hout⟩
  · rw [hnan]
  · rw [hp]
    have hc : (0 ≤ p && p ≤ 100) = false := by
      rw [Bool.eq_false_iff]
      intro hc
      simp only [Bool.and_eq_true, decide_eq_true_eq] at hc
      omega
    simp [hc]

theorem applyTaskUpdate_id (t : TaskRow) (u : TaskUpdateData) :
    (applyTaskUpdate t u).id = t.id := rfl

theorem dbFindById_of_filter_single (rows : List α) (getId : α → String) (id : String)
    (r : α) (h : rows.filter (fun x => getId x == id) = [r]) :
    dbFindById rows getId id = Except.ok r := by
  unfold dbFindById
  rw [h]

theorem filter_map_conditional_update (st : List TaskRow) (id : String)
    (f : TaskRow → TaskRow) (hf : ∀ t, (f t).id = t.id) :
    (st.map (fun t => if t.id == id then f t else t)).filter (fun t => t.id == id) =
      (st.filter (fun t => t.id == id)).map f := by
  induction st with
  | nil => rfl
  | cons x xs ih =>
    by_cases hx : x.id = id
    · simp [List.filter_cons, hx, hf] at ih ⊢
      exact ih
    · simp [List.filter_cons, hx, hf] at ih ⊢
      exact ih

/-- A stored task used in concrete evaluations: pending, 30% done. -/
def sampleTask : TaskRow :=
  { id := "t1", title := "Write report", description := "Quarterly report draft"
    status := "pending", priority := "medium", progress := 30
    due_date := none, category := none, completed_at := none }

/-- Update body carrying both `status = completed` and a valid progress
value below 100. -/
def sampleBodyC3 : TaskUpdateBody :=
  { status := some "completed", progress := some (some 50) }

/-- The row the C3 counterexample body actually produces. -/
def sampleTaskAfterC3 : TaskRow :=
  { sampleTask with status := "completed", progress := 50, completed_at := some 77 }

/-- C3 counterexample: a `PUT /api/tasks/:id` body setting `status` to
`completed` together with `progress = 50` leaves the stored progress at
50, not the claimed 100: the progress branch runs after the status
branch and overwrites the forced 100.  (`completed_at` is still
stamped.) -/
theorem c3_completed_with_progress_counterexample :
    (updateTaskHandler [sampleTask] "t1" sampleBodyC3 77).1.status = 200 ∧
    (updateTaskHandler [sampleTask] "t1" sampleBodyC3 77).2 = [sampleTaskAfterC3] ∧
    sampleTaskAfterC3.status = "completed" ∧
    (updateTaskHandler [sampleTask] "t1" sampleBodyC3 77).2.map TaskRow.progress ≠ [100] := by
  refine ⟨rfl, rfl, rfl, by decide⟩

/-- C3 (amended): on task update, a parsed progress of 100 with a prior
status other than `completed` forces status `completed`, progress 100
and a completion stamp; and a body status of `completed` forces progress
100 and a completion stamp unless the body also carries a parseable
progress value in [0, 100) — that value then overrides the forced 100. -/
theorem c3_completion_rule (st : List TaskRow) (id : String) (t : TaskRow)
    (body : TaskUpdateBody) (now : Nat)
    (hfound : st.filter (fun x => x.id == id) = [t]) :
    (updateTaskHandler st id body now).1.status = 200 ∧
    (updateTaskHandler st id body now).2.filter (fun x => x.id == id) =
      [applyTaskUpdate t (buildTaskUpdate t body now)] ∧
    (body.progress = some (some 100) → t.status ≠ "completed" →
      (applyTaskUpdate t (buildTaskUpdate t body now)).status = "completed" ∧
      (applyTaskUpdate t (buildTaskUpdate t body now)).progress = 100 ∧
      (applyTaskUpdate t (buildTaskUpdate t body now)).completed_at = some now) ∧
    (body.status = some "completed" →
      (∀ p : Int, body.progress = some (some p) → 0 ≤ p → p ≤ 100 → p = 100) →
      (applyTaskUpdate t (buildTaskUpdate t body now)).status = "completed" ∧
      (applyTaskUpdate t (buildTaskUpdate t body now)).progress = 100 ∧
      (applyTaskUpdate t (buildTaskUpdate t body now)).completed_at = some now) := by
  have hfind := dbFindById_of_filter_single st TaskRow.id id t hfound
  refine ⟨?_, ?_, ?_, ?_⟩
  · simp [updateTaskHandler, hfind]
  · simp only [updateTaskHandler, hfind]
    rw [filter_map_conditional_update st id
      (fun x => applyTaskUpdate x (buildTaskUpdate t body now))
      (fun x => applyTaskUpdate_id x (buildTaskUpdate t body now)), hfound]
    rfl
  · intro hp ht
    have hu := stepProgress_of_100 t body now
      (stepPriority body (stepStatus body now (stepDescription body (stepTitle body {}))))
      hp ht
    have hbs : (buildTaskUpdate t body now).status = some "completed" := by
      unfold buildTaskUpdate
      rw [stepCategory_status, stepDueDate_status, hu]
    have hbp : (buildTaskUpdate t body now).progress = some 100 := by
      unfold buildTaskUpdate
      rw [stepCategory_progress, stepDueDate_progress, hu]
    have hbc : (buildTaskUpdate t body now).completed_at = some now := by
      unfold buildTaskUpdate
      rw [stepCategory_completed_at, stepDueDate_completed_at, hu]
    exact ⟨by simp [applyTaskUpdate, hbs], by simp [applyTaskUpdate, hbp],
      by simp [applyTaskUpdate, hbc]⟩
  · intro hs hguard
    have h1 := stepStatus_of_completed body now (stepDescription body (stepTitle body {})) hs
    have hXp : (stepPriority body (stepStatus body now
        (stepDescription body (stepTitle body {})))).progress = some 100 := by
      rw [stepPriority_progress, h1]
    have hXs : (stepPriority body (stepStatus body now
        (stepDescription body (stepTitle body {})))).status = some "completed" := by
      rw [stepPriority_status, h1]
    have hXc : (stepPriority body (stepStatus body now
        (stepDescription body (stepTitle body {})))).completed_at = some now := by
      rw [stepPriority_completed_at, h1]
    have h2 := stepProgress_keeps_completion t body now
      (stepPriority body (stepStatus body now (stepDescription body (stepTitle body {}))))
      hguard hXp hXs hXc
    have hbs : (buildTaskUpdate t body now).status = some "completed" := by
      unfold buildTaskUpdate
      rw [stepCategory_status, stepDueDate_status]
      exact h2.2.1
    have hbp : (buildTaskUpdate t body now).progress = some 100 := by
      unfold buildTaskUpdate
      rw [stepCategory_progress, stepDueDate_progress]
      exact h2.1
    have hbc : (buildTaskUpdate t body now).completed_at = some now := by
      unfold buildTaskUpdate
      rw [stepCategory_completed_at, stepDueDate_completed_at]
      exact h2.2.2
    exact ⟨by simp [applyTaskUpdate, hbs], by simp [applyTaskUpdate, hbp],
      by simp [applyTaskUpdate, hbc]⟩

/-- Witness for the amended C3 theorem: progress 100 on the pending
sample task completes it, and a plain `status = completed` body forces
progress 100. -/
theorem c3_completion_rule_witness :
    ((applyTaskUpdate sampleTask
        (buildTaskUpdate sampleTask { progress := some (some 100) } 88)).status = "completed" ∧
      (applyTaskUpdate sampleTask
        (buildTaskUpdate sampleTask { progress := some (some 100) } 88)).progress = 100 ∧
      (applyTaskUpdate sampleTask
        (buildTaskUpdate sampleTask { progress := some (some 100) } 88)).completed_at = some 88) ∧
    ((applyTaskUpdate sampleTask
        (buildTaskUpdate sampleTask { status := some "completed" } 90)).status = "completed" ∧
      (applyTaskUpdate sampleTask
        (buildTaskUpdate sampleTask { status := some "completed" } 90)).progress = 100 ∧
      (applyTaskUpdate sampleTask
        (buildTaskUpdate sampleTask { status := some "completed" } 90)).completed_at = some 90) :=
  ⟨(c3_completion_rule [sampleTask] "t1" sampleTask { progress := some (some 100) } 88
      (by rfl)).2.2.1 rfl (by decide),
   (c3_completion_rule [sampleTask] "t1" sampleTask { status := some "completed" } 90
      (by rfl)).2.2.2 rfl (fun p hp => Option.noConfusion hp)⟩

/-- Update body whose progress is out of range while other allow-listed
fields are present, including `status = completed`. -/
def sampleBodyC7 : TaskUpdateBody :=
  { title := some "Updated title", status := some "completed", progress := some (some 200) }

/-- The row the C7 counterexample body actually produces. -/
def sampleTaskAfterC7 : TaskRow :=
  { sampleTask with
      title := "Updated title"
      status := "completed"
      progress := 100
      completed_at := some 99 }

/-- C7 counterexample: a body with progress 200 (out of range) together
with `status = completed` does leave the out-of-range value unapplied —
but the stored progress still changes, from 30 to 100, through the
completion rule, against the claim that it is left unchanged. -/
theorem c7_out_of_range_progress_counterexample :
    (updateTaskHandler [sampleTask] "t1" sampleBodyC7 99).1.status = 200 ∧
    (updateTaskHandler [sampleTask] "t1" sampleBodyC7 99).2 = [sampleTaskAfterC7] ∧
    (updateTaskHandler [sampleTask] "t1" sampleBodyC7 99).2.map TaskRow.progress ≠
      [sampleTask.progress] := by
  refine ⟨rfl, rfl, by decide⟩

/-- C7 (amended): an update whose progress value is NaN or outside
[0, 100] is not rejected — the request succeeds with 200 and the invalid
value is ignored; the stored progress is unchanged unless the body also
sets `status` to `completed`, which forces it to 100; and the other
allow-listed fields present in the body are still applied. -/
theorem c7_invalid_progress_ignored (st : List TaskRow) (id : String) (t : TaskRow)
    (body : TaskUpdateBody) (now : Nat) (parsed : Option Int)
    (hfound : st.filter (fun x => x.id == id) = [t])
    (hp : body.progress = some parsed)
    (hinv : parsed = none ∨ ∃ p : Int, parsed = some p ∧ (p < 0 ∨ 100 < p)) :
    (updateTaskHandler st id body now).1.status = 200 ∧
    (updateTaskHandler st id body now).2.filter (fun x => x.id == id) =
      [applyTaskUpdate t (buildTaskUpdate t body now)] ∧
    (applyTaskUpdate t (buildTaskUpdate t body now)).progress =
      (if body.status = some "completed" then 100 else t.progress) ∧
    (∀ s, body.title = some s → s ≠ "" →
      (applyTaskUpdate t (buildTaskUpdate t body now)).title = s) ∧
    (∀ s, body.priority = some s → tasksUpdatePriorityValues.contains s = true → s ≠ "" →
      (applyTaskUpdate t (buildTaskUpdate t body now)).priority = s) ∧
    (∀ s, body.category = some s → s ≠ "" →
      (applyTaskUpdate t (buildTaskUpdate t body now)).category = some s) := by
  have hfind := dbFindById_of_filter_single st TaskRow.id id t hfound
  have hskip := stepProgress_of_out_of_range t body now
    (stepPriority body (stepStatus body now (stepDescription body (stepTitle body {}))))
    parsed hp hinv
  refine ⟨?_, ?_, ?_, ?_, ?_, ?_⟩
  · simp [updateTaskHandler, hfind]
  · simp only [updateTaskHandler, hfind]
    rw [filter_map_conditional_update st id
      (fun x => applyTaskUpdate x (buildTaskUpdate t body now))
      (fun x => applyTaskUpdate_id x (buildTaskUpdate t body now)), hfound]
    rfl
  · by_cases hs : body.status = some "completed"
    · have h1 := stepStatus_of_completed body now (stepDescription body (stepTitle body {})) hs
      have hbp : (buildTaskUpdate t body now).progress = some 100 := by
        unfold buildTaskUpdate
        rw [stepCategory_progress, stepDueDate_progress, hskip, stepPriority_progress, h1]
      simp [applyTaskUpdate, hbp, hs]
    · have h2 := stepStatus_progress_of_not_completed body now
        (stepDescription body (stepTitle body {})) hs
      have hbp : (buildTaskUpdate t body now).progress = none := by
        unfold buildTaskUpdate
        rw [stepCategory_progress, stepDueDate_progress, hskip, stepPriority_progress, h2,
          stepDescription_progress, stepTitle_progress]
      simp [applyTaskUpdate, hbp, hs]
  · intro s hstitle hne
    have ht : (stepTitle body {}).title = some s := by
      simp [stepTitle, jsTruthyStr, hstitle, hne]
    have hbt : (buildTaskUpdate t body now).title = some s := by
      unfold buildTaskUpdate
      rw [stepCategory_title, stepDueDate_title, stepProgress_title, stepPriority_title,
        stepStatus_title, stepDescription_title]
      exact ht
    simp [applyTaskUpdate, hbt]
  · intro s hsp hcontains hne
    have hmem : s ∈ tasksUpdatePriorityValues := by simpa using hcontains
    have hpr : (stepPriority body (stepStatus body now
        (stepDescription body (stepTitle body {})))).priority = some s := by
      simp [stepPriority, hsp, hne, hmem]
    have hbpr : (buildTaskUpdate t body now).priority = some s := by
      unfold buildTaskUpdate
      rw [stepCategory_priority, stepDueDate_priority, stepProgress_priority]
      exact hpr
    simp [applyTaskUpdate, hbpr]
  · intro s hsc hne
    have hbc : (buildTaskUpdate t body now).category = some s := by
      unfold buildTaskUpdate
      simp [stepCategory, jsTruthyStr, hsc, hne]
    simp [applyTaskUpdate, hbc]

/-- C8 counterexample: the users list response carries no `pagination`
block — its envelope stops at `count`, `total` and `data` — while the
applications and events list responses do carry one. -/
theorem c8_users_list_no_pagination_counterexample :
    (usersListHandler [] none none none 1 10).pagination = none ∧
    (joinListHandler [] none 1 10).pagination.isSome = true ∧
    (eventsListHandler [] none none none none 1 10 0).pagination.isSome = true := by
  exact ⟨rfl, rfl, rfl⟩

/-- C8 (amended): the applications and events list responses include a
`pagination` block; the users list response includes `count` and `total`
but no `pagination` block. -/
theorem c8_pagination_blocks (apps : List JoinApplication) (events : List EventRow)
    (users : List UserRecord) (appStatus evStatus evActive evDepartment evUpcoming
      uRole uDepartment uActive : Option String) (page limit now : Nat) :
    (joinListHandler apps appStatus page limit).pagination.isSome = true ∧
    (eventsListHandler events evStatus evActive evDepartment evUpcoming
      page limit now).pagination.isSome = true ∧
    (usersListHandler users uRole uDepartment uActive page limit).pagination = none := by
  exact ⟨rfl, rfl, rfl⟩

/-- C9 counterexample: validation accepts none of the difficulty values
the claim lists — the schema's enum is the French
{Débutant, Intermédiaire, Avancé, Tous niveaux}, not
{beginner, intermediate, advanced, all-levels}. -/
theorem c9_difficulty_enum_counterexample :
    eventDifficultyAccepted "beginner" = false ∧
    eventDifficultyAccepted "intermediate" = false ∧
    eventDifficultyAccepted "advanced" = false ∧
    eventDifficultyAccepted "all-levels" = false ∧
    eventDifficultyAccepted "Débutant" = true ∧
    eventSchemaDifficulties = ["Débutant", "Intermédiaire", "Avancé", "Tous niveaux"] := by
  refine ⟨by decide, by decide, by decide, by decide, by decide, rfl⟩

/-- C9 (amended): the difficulty values accepted by event validation are
exactly {Débutant, Intermédiaire, Avancé, Tous niveaux} plus the empty
string; the department value set is identical between every validation
schema and the filter-parsing logic of every route (difficulty and
academic year occur in no filter logic). -/
theorem c9_enum_consistency :
    (∀ s, eventDifficultyAccepted s = true ↔ (s = "" ∨ s ∈ eventSchemaDifficulties)) ∧
    joinSchemaPreferredDepartments = joinSchemaSecondaryDepartments ∧
    joinSchemaPreferredDepartments = eventSchemaDepartments ∧
    joinSchemaPreferredDepartments = userUpdateSchemaDepartments ∧
    joinSchemaPreferredDepartments = taskSchemaDepartments ∧
    joinSchemaPreferredDepartments = announcementSchemaDepartments ∧
    joinSchemaPreferredDepartments = eventsFilterDepartments ∧
    joinSchemaPreferredDepartments = announcementsFilterDepartments ∧
    joinSchemaPreferredDepartments = tasksFilterDepartments ∧
    joinSchemaPreferredDepartments = usersFilterDepartments := by
  refine ⟨?_, rfl, rfl, rfl, rfl, rfl, rfl, rfl, rfl, rfl⟩
  intro s
  simp [eventDifficultyAccepted]

/-- C10: with only an email and a password, `POST /api/users` inserts a
user built from the fixed default template — role `admin`, `is_active`
true — under the lowercased email; every caller-supplied body field,
including `role` and `is_active`, overrides the template, and
`password_hash` alone is forced to the hash of the supplied password
even when the body tries to supply one. -/
theorem c10_create_user_defaults (hashFn : String → String) (st : List UserRecord)
    (email password : String) (userData : UserOverrides) (newId : String) (now : Nat)
    (hemail : ¬ email = "") (hpass : ¬ password = "")
    (hfresh : st.filter (fun u => u.email == email.toLower) = []) :
    (createUserHandler hashFn st email password userData newId now).1.status = 201 ∧
    ∃ u, (createUserHandler hashFn st email password userData newId now).2 = st ++ [u] ∧
      u.password_hash = some (hashFn password) ∧
      u.email = email.toLower ∧
      u.role = userData.role.getD "admin" ∧
      u.is_active = userData.is_active.getD true ∧
      u.first_name = userData.first_name.getD "Adem" ∧
      u.last_name = userData.last_name.getD "Ben Abdi" ∧
      u.phone = userData.phone.getD "+216123456789" ∧
      u.telegram_id = userData.telegram_id.getD "@adembenabdi" ∧
      u.discord_id = userData.discord_id.getD "adembenabdi#1234" ∧
      u.home_address = userData.home_address.getD "123 Rue de la Liberté, Tunis, Tunisia" ∧
      u.student_id = userData.student_id.getD "202331551801" ∧
      u.academic_year = userData.academic_year.getD "3" ∧
      u.field_of_study = userData.field_of_study.getD "Computer Science" ∧
      u.department = userData.department.getD "it" := by
  have hlen : (st.filter (fun u => u.email == email.toLower)).length = 0 := by
    rw [hfresh]
    rfl
  refine ⟨by simp [createUserHandler, hemail, hpass, hlen], ?_⟩
  refine ⟨{ generateSampleUser email password userData with
      password_hash := some (hashFn password), id := newId, created_at := now },
    ?_, rfl, rfl, rfl, rfl, rfl, rfl, rfl, rfl, rfl, rfl, rfl, rfl, rfl, rfl⟩
  simp [createUserHandler, hemail, hpass, hlen]

/-- Overrides used by the C10 witness: the body overrides role and
is_active and even tries to supply its own password_hash. -/
def sampleOverrides : UserOverrides :=
  { role := some "membre", is_active := some false, password_hash := some "supplied" }

/-- Witness for the C10 theorem at a concrete provisioning request. -/
theorem c10_create_user_defaults_witness :
    (createUserHandler (fun s => "hashed:" ++ s) [] "New.User@Example.COM" "pw123"
      sampleOverrides "u9" 42).1.status = 201 ∧
    ∃ u, (createUserHandler (fun s => "hashed:" ++ s) [] "New.User@Example.COM" "pw123"
        sampleOverrides "u9" 42).2 = [] ++ [u] ∧
      u.password_hash = some ((fun s => "hashed:" ++ s) "pw123") ∧
      u.email = ("New.User@Example.COM").toLower ∧
      u.role = sampleOverrides.role.getD "admin" ∧
      u.is_active = sampleOverrides.is_active.getD true ∧
      u.first_name = sampleOverrides.first_name.getD "Adem" ∧
      u.last_name = sampleOverrides.last_name.getD "Ben Abdi" ∧
      u.phone = sampleOverrides.phone.getD "+216123456789" ∧
      u.telegram_id = sampleOverrides.telegram_id.getD "@adembenabdi" ∧
      u.discord_id = sampleOverrides.discord_id.getD "adembenabdi#1234" ∧
      u.home_address = sampleOverrides.home_address.getD "123 Rue de la Liberté, Tunis, Tunisia" ∧
      u.student_id = sampleOverrides.student_id.getD "202331551801" ∧
      u.academic_year = sampleOverrides.academic_year.getD "3" ∧
      u.field_of_study = sampleOverrides.field_of_study.getD "Computer Science" ∧
      u.department = sampleOverrides.department.getD "it" :=
  c10_create_user_defaults (fun s => "hashed:" ++ s) [] "New.User@Example.COM" "pw123"
    sampleOverrides "u9" 42 (by decide) (by decide) rfl

/-- Body used by the C7 witness: out-of-range progress amid other valid
fields, without touching status. -/
def sampleBodyC7W : TaskUpdateBody :=
  { title := some "T2", priority := some "high", category := some "ops"
    progress := some (some 200) }

/-- Witness for the amended C7 theorem: progress 200 is ignored (stored
progress stays 30 since status is untouched) while title, priority and
category are applied, and the request is answered 200. -/
theorem c7_invalid_progress_ignored_witness :
    (updateTaskHandler [sampleTask] "t1" sampleBodyC7W 55).1.status = 200 ∧
    (applyTaskUpdate sampleTask (buildTaskUpdate sampleTask sampleBodyC7W 55)).progress =
      (if sampleBodyC7W.status = some "completed" then 100 else sampleTask.progress) ∧
    (applyTaskUpdate sampleTask (buildTaskUpdate sampleTask sampleBodyC7W 55)).title = "T2" ∧
    (applyTaskUpdate sampleTask (buildTaskUpdate sampleTask sampleBodyC7W 55)).priority =
      "high" ∧
    (applyTaskUpdate sampleTask (buildTaskUpdate sampleTask sampleBodyC7W 55)).category =
      some "ops" := by
  have h := c7_invalid_progress_ignored [sampleTask] "t1" sampleTask sampleBodyC7W 55
    (some 200) rfl rfl (Or.inr ⟨200, rfl, Or.inr (by norm_num)⟩)
  exact ⟨h.1, h.2.2.1, h.2.2.2.1 "T2" rfl (by decide),
    h.2.2.2.2.1 "high" rfl (by decide) (by decide), h.2.2.2.2.2 "ops" rfl (by decide)⟩
